import Mathlib

/-!
Verification of the HTML report module (`src/report.rs`) of the goose
load-testing tool: a shallow embedding of its report/chart string builders
and theorems about the claims of the specification.

Modelling conventions, used throughout:
* Rust `String`/`&str` values are Lean `String`s; `usize`/`u32` are `Nat`.
* `chrono::DateTime<Local>` values are modelled by their rendered
  `"%Y-%m-%d %H:%M:%S"` strings: `Graph::generate_markup` only ever uses a
  timestamp through `.format(datetime_format)`, so the rendered string is
  the whole observable content of the value here.
* `serde_json`'s `json!(self.data)` display serialization of a
  `&[(String, u32)]` slice is modelled by `jsonData` below.
* Rust's `format!` templates are split at their interpolation slots into
  literal segments (`graphSegA` ..., `repSeg0` ...); each segment is the
  source template's text, character for character (braces written with
  hex escapes).
-/

/-- The character for a decimal digit (0 to 9). -/
def digitChar : Nat → Char
  | 0 => '0'
  | 1 => '1'
  | 2 => '2'
  | 3 => '3'
  | 4 => '4'
  | 5 => '5'
  | 6 => '6'
  | 7 => '7'
  | 8 => '8'
  | _ => '9'

/-- Decimal digits with explicit recursion fuel (the fuel only needs to be at
least the digit count; structural recursion keeps the function reducible). -/
def natToDecAux : Nat → Nat → List Char
  | 0, _ => []
  | fuel + 1, n =>
    if n < 10 then [digitChar n]
    else natToDecAux fuel (n / 10) ++ [digitChar (n % 10)]

/-- Decimal digits of a natural number, most significant first: the shallow
embedding of Rust's `Display` rendering of `usize`/`u32` values. -/
def natToDec (n : Nat) : List Char :=
  natToDecAux (n + 1) n

/-- Rust's `Display` rendering of a `usize`/`u32` value as a Lean string. -/
def natRepr (n : Nat) : String :=
  ⟨natToDec n⟩

/-- Comma-grouping of a digit list given least-significant digit first. -/
def commaGroups : List Char → List Char
  | a :: b :: c :: d :: rest => a :: b :: c :: ',' :: commaGroups (d :: rest)
  | l => l

/-- Modelled from the spec: `metrics::format_number` lives in the metrics
module, which is outside this repository snapshot (only `report.rs` is
given); the report layer uses it purely as a renderer of counts. Modelled
as decimal rendering with comma thousands separators. -/
def format_number (n : Nat) : String :=
  ⟨(commaGroups (natToDec n).reverse).reverse⟩

/-- The character for a hexadecimal digit (0 to 15), lowercase. -/
def hexDigit : Nat → Char
  | 0 => '0'
  | 1 => '1'
  | 2 => '2'
  | 3 => '3'
  | 4 => '4'
  | 5 => '5'
  | 6 => '6'
  | 7 => '7'
  | 8 => '8'
  | 9 => '9'
  | 10 => 'a'
  | 11 => 'b'
  | 12 => 'c'
  | 13 => 'd'
  | 14 => 'e'
  | _ => 'f'

/-- JSON string-character escaping as serde_json's serializer performs it:
double quote and backslash get a backslash escape, control characters use
the short escapes where JSON has them and `\u00XX` otherwise, every other
character is emitted unchanged. -/
def jsonEscapeChar (c : Char) : List Char :=
  if c = '"' then ['\\', '"']
  else if c = '\\' then ['\\', '\\']
  else if c = Char.ofNat 8 then ['\\', 'b']
  else if c = Char.ofNat 9 then ['\\', 't']
  else if c = Char.ofNat 10 then ['\\', 'n']
  else if c = Char.ofNat 12 then ['\\', 'f']
  else if c = Char.ofNat 13 then ['\\', 'r']
  else if c.toNat < 32 then ['\\', 'u', '0', '0', hexDigit (c.toNat / 16), hexDigit (c.toNat % 16)]
  else [c]

/-- Concatenation of a list of character lists. -/
def listJoin : List (List Char) → List Char
  | [] => []
  | l :: ls => l ++ listJoin ls

/-- A JSON string literal for `s`, as serde_json serializes a Rust `String`. -/
def jsonString (s : String) : String :=
  ⟨'"' :: (listJoin (s.data.map jsonEscapeChar) ++ ['"'])⟩

/-- One `(String, u32)` tuple as serde_json serializes it: a two-element array. -/
def jsonPair (p : String × Nat) : String :=
  "[" ++ jsonString p.1 ++ "," ++ natRepr p.2 ++ "]"

/-- `json!(data)` rendered with `Display`, for `data : &[(String, u32)]`:
the compact JSON array of label/value pairs, in input order. -/
def jsonData (data : List (String × Nat)) : String :=
  "[" ++ String.intercalate "," (data.map jsonPair) ++ "]"

/-- Whether `needle` is an initial run of `hay` (prefix test on characters). -/
def leadsWith : List Char → List Char → Bool
  | [], _ => true
  | _ :: _, [] => false
  | a :: as, b :: bs => a == b && leadsWith as bs

/-- The number of (possibly overlapping) occurrences of `needle` starting at
each position of `hay`. -/
def countSub (needle : List Char) : List Char → Nat
  | [] => 0
  | c :: t => (if leadsWith needle (c :: t) then 1 else 0) + countSub needle t

/-- `countSub` on the characters of strings. -/
def countSubStr (needle hay : String) : Nat :=
  countSub needle.data hay.data

/-- Whether `needle` occurs somewhere in `hay`. -/
def strContains (needle hay : String) : Bool :=
  countSubStr needle hay != 0

/-- No nonempty suffix of the list that is shorter than `needle` is an
initial run of `needle`: appending anything after the list can then create
no occurrence of `needle` spanning the boundary. -/
def spanSafe (needle : List Char) : List Char → Bool
  | [] => true
  | c :: t => (decide (needle.length ≤ (c :: t).length) || !(leadsWith (c :: t) needle)) && spanSafe needle t

/-- A plain table cell as the report's row templates write one. -/
def tdCell (s : String) : String :=
  "<td>" ++ s ++ "</td>"

/-- `needle` appears verbatim (uninterpreted, unescaped) inside `hay`. -/
def occursIn (needle hay : String) : Prop :=
  ∃ a b, hay = a ++ (needle ++ b)
/-- Literal text of the chart template before the first html_id slot (from Graph::generate_markup). -/
def graphSegA : String :=
  "<div class=\"graph\">\n                <div id=\""

/-- Literal text of the chart template between the two html_id slots. -/
def graphSegB : String :=
  "\" style=\"width: 1000px; height:500px; background: white;\"></div>\n\n                <script type=\"text/javascript\">\n                    var chartDom = document.getElementById('"

/-- Literal text of the chart template between the second html_id slot and the y_axis_label slot. -/
def graphSegC : String :=
  "');\n                    var myChart = echarts.init(chartDom);\n\n                    myChart.setOption(\x7b\n                        color: ['#2c664f'],\n                        tooltip: \x7b trigger: 'axis' \x7d,\n                        toolbox: \x7b\n                            feature: \x7b\n                                dataZoom: \x7b yAxisIndex: 'none' \x7d,\n                                restore: \x7b\x7d,\n                                saveAsImage: \x7b\x7d\n                            \x7d\n                        \x7d,\n                        dataZoom: [\n                            \x7b\n                                type: 'inside',\n                                start: 0,\n                                end: 100,\n                                fillerColor: 'rgba(34, 80, 61, 0.25)',\n                                selectedDataBackground: \x7b\n                                    lineStyle: \x7b color: '#2c664f' \x7d,\n                                    areaStyle: \x7b color: '#378063' \x7d\n                                \x7d\n                            \x7d,\n                            \x7b\n                                start: 0,\n                                end: 100,\n                                fillerColor: 'rgba(34, 80, 61, 0.25)',\n                                selectedDataBackground: \x7b\n                                    lineStyle: \x7b color: '#2c664f' \x7d,\n                                    areaStyle: \x7b color: '#378063' \x7d\n                                \x7d\n                            \x7d,\n                        ],\n                        xAxis: \x7b type: 'time' \x7d,\n                        yAxis: \x7b\n                            name: '"

/-- Literal text of the chart template between the y_axis_label slot and the starting_area slot. -/
def graphSegD : String :=
  "',\n                            nameLocation: 'center',\n                            nameRotate: 90,\n                            nameGap: 45,\n                            type: 'value'\n                        \x7d,\n                        series: [\n                            \x7b\n                                type: 'line',\n                                symbol: 'none',\n                                sampling: 'lttb',\n                                lineStyle: \x7b color: '#2c664f' \x7d,\n                                areaStyle: \x7b color: '#378063' \x7d,\n                                markArea: \x7b\n                                    itemStyle: \x7b color: 'rgba(6, 6, 6, 0.10)' \x7d,\n                                    data: [\n                                        "

/-- Literal text of the chart template between the starting_area and stopping_area slots. -/
def graphSegE : String :=
  "\n                                        "

/-- Literal text of the chart template between the stopping_area slot and the values slot. -/
def graphSegF : String :=
  "\n                                    ]\n                                \x7d,\n                                data: "

/-- Literal text of the chart template after the values slot. -/
def graphSegG : String :=
  ",\n                            \x7d\n                        ]\n                    \x7d);\n                </script>\n            </div>"

/-- Literal text of the 'Starting' mark-area fragment before the first timestamp slot. -/
def startAreaSegA : String :=
  "[\n                    \x7b\n                        name: 'Starting',\n                        xAxis: '"

/-- Literal text of a mark-area fragment between its two timestamp slots. -/
def areaSegB : String :=
  "'\n                    \x7d,\n                    \x7b\n                        xAxis: '"

/-- Literal text of a mark-area fragment after the second timestamp slot. -/
def areaSegC : String :=
  "'\n                    \x7d\n                ],"

/-- Literal text of the 'Stopping' mark-area fragment before the first timestamp slot. -/
def stopAreaSegA : String :=
  "[\n                    \x7b\n                        name: 'Stopping',\n                        xAxis: '"

/-- Literal segment 0 of the build_report document template (between interpolation slots). -/
def repSeg0 : String :=
  "<!DOCTYPE html>\n<html>\n<head>\n    <title>Goose Attack Report</title>\n    <style>\n        .container \x7b\n            width: 1000px;\n            margin: 0 auto;\n            padding: 10px;\n            background: #173529;\n            font-family: Arial, Helvetica, sans-serif;\n            font-size: 14px;\n            color: #fff;\n        \x7d\n\n        .info span\x7b\n            color: #b3c3bc;\n        \x7d\n\n        table \x7b\n            border-collapse: collapse;\n            text-align: center;\n            width: 100%;\n        \x7d\n\n        td, th \x7b\n            border: 1px solid #cad9ea;\n            color: #666;\n            height: 30px;\n        \x7d\n\n        thead th \x7b\n            background-color: #cce8eb;\n            width: 100px;\n        \x7d\n\n        tr:nth-child(odd) \x7b\n            background: #fff;\n        \x7d\n\n        tr:nth-child(even) \x7b\n            background: #f5fafa;\n        \x7d\n\n        .charts-container .chart \x7b\n            width: 100%;\n            height: 350px;\n            margin-bottom: 30px;\n        \x7d\n\n        .download \x7b\n            float: right;\n        \x7d\n\n        .download a \x7b\n            color: #00ca5a;\n        \x7d\n\n        .graph \x7b\n            margin-bottom: 1em;\n        \x7d\n    </style>\n    <script src=\"https://cdn.jsdelivr.net/npm/echarts@5.2.2/dist/echarts.min.js\"></script>\n</head>\n<body>\n    <div class=\"container\">\n        <h1>Goose Attack Report</h1>\n\n        <div class=\"info\">\n            <p>Users: <span>"

/-- Literal segment 1 of the build_report document template (between interpolation slots). -/
def repSeg1 : String :=
  "</span> </p>\n            <p>Target Host: <span>"

/-- Literal segment 2 of the build_report document template (between interpolation slots). -/
def repSeg2 : String :=
  "</span></p>\n            "

/-- Literal segment 3 of the build_report document template (between interpolation slots). -/
def repSeg3 : String :=
  "\n            <p><span><small><em>"

/-- Literal segment 4 of the build_report document template (between interpolation slots). -/
def repSeg4 : String :=
  " v"

/-- Literal segment 5 of the build_report document template (between interpolation slots). -/
def repSeg5 : String :=
  "</em></small></span></pr>\n        </div>\n\n        <div class=\"requests\">\n            <h2>Request Metrics</h2>\n\n            "

/-- Literal segment 6 of the build_report document template (between interpolation slots). -/
def repSeg6 : String :=
  "\n\n            <table>\n                <thead>\n                    <tr>\n                        <th>Method</th>\n                        <th>Name</th>\n                        <th># Requests</th>\n                        <th># Fails</th>\n                        <th>Average (ms)</th>\n                        <th>Min (ms)</th>\n                        <th>Max (ms)</th>\n                        <th>RPS</th>\n                        <th>Failures/s</th>\n                    </tr>\n                </thead>\n                <tbody>\n                    "

/-- Literal segment 7 of the build_report document template (between interpolation slots). -/
def repSeg7 : String :=
  "\n                </tbody>\n            </table>\n        </div>\n\n        "

/-- Literal segment 8 of the build_report document template (between interpolation slots). -/
def repSeg8 : String :=
  "\n\n        <div class=\"responses\">\n            <h2>Response Time Metrics</h2>\n\n            "

/-- Literal segment 9 of the build_report document template (between interpolation slots). -/
def repSeg9 : String :=
  "\n\n            <table>\n                <thead>\n                    <tr>\n                        <th>Method</th>\n                        <th>Name</th>\n                        <th>50%ile (ms)</th>\n                        <th>60%ile (ms)</th>\n                        <th>70%ile (ms)</th>\n                        <th>80%ile (ms)</th>\n                        <th>90%ile (ms)</th>\n                        <th>95%ile (ms)</th>\n                        <th>99%ile (ms)</th>\n                        <th>100%ile (ms)</th>\n                    </tr>\n                </thead>\n                <tbody>\n                    "

/-- Literal segment 10 of the build_report document template (between interpolation slots). -/
def repSeg10 : String :=
  "\n                </tbody>\n            </table>\n        </div>\n\n        "

/-- Literal segment 11 of the build_report document template (between interpolation slots). -/
def repSeg11 : String :=
  "\n\n        "

/-- Literal segment 12 of the build_report document template (between interpolation slots). -/
def repSeg12 : String :=
  "\n\n        "

/-- Literal segment 13 of the build_report document template (between interpolation slots). -/
def repSeg13 : String :=
  "\n\n        <div class=\"users\">\n        <h2>User Metrics</h2>\n            "

/-- Literal segment 14 of the build_report document template (between interpolation slots). -/
def repSeg14 : String :=
  "\n        </div>\n\n        "

/-- Literal segment 15 of the build_report document template (between interpolation slots). -/
def repSeg15 : String :=
  "\n\n    </div>\n</body>\n</html>"


/-- The full chart template of `Graph::generate_markup`: the source's
`format!` literal with its six interpolation slots filled (html_id is
interpolated twice). -/
def graphTemplate (html_id y_axis_label starting_area stopping_area values : String) : String :=
  graphSegA ++ html_id ++ graphSegB ++ html_id ++ graphSegC ++ y_axis_label ++ graphSegD ++
    starting_area ++ graphSegE ++ stopping_area ++ graphSegF ++ values ++ graphSegG

/-- The HTML graph data (struct `Graph` of report.rs). The four phase
timestamps are `Option<DateTime<Local>>` in the source, modelled here by
their rendered `"%Y-%m-%d %H:%M:%S"` strings; `data` is the `&[(String, T)]`
series with the numeric type instantiated to `Nat`. -/
structure Graph where
  html_id : String
  y_axis_label : String
  data : List (String × Nat)
  starting : Option String
  started : Option String
  stopping : Option String
  stopped : Option String

/-- Creates a new Graph object (Graph::new). -/
def Graph.new (html_id y_axis_label : String) (data : List (String × Nat))
    (starting started stopping stopped : Option String) : Graph :=
  { html_id, y_axis_label, data, starting, started, stopping, stopped }

/-- The `starting_area` binding of `Graph::generate_markup`: the 'Starting'
mark-area fragment when both timestamps are present, the empty string
otherwise. -/
def starting_mark_area (starting started : Option String) : String :=
  if starting.isSome && started.isSome then
    startAreaSegA ++ starting.get! ++ areaSegB ++ started.get! ++ areaSegC
  else ""

/-- The `stopping_area` binding of `Graph::generate_markup`: the 'Stopping'
mark-area fragment when both timestamps are present, the empty string
otherwise. -/
def stopping_mark_area (stopping stopped : Option String) : String :=
  if stopping.isSome && stopped.isSome then
    stopAreaSegA ++ stopping.get! ++ areaSegB ++ stopped.get! ++ areaSegC
  else ""

/-- Helper function to build HTML charts powered by the ECharts library
(Graph::generate_markup). -/
def Graph.generate_markup (g : Graph) : String :=
  graphTemplate g.html_id g.y_axis_label
    (starting_mark_area g.starting g.started)
    (stopping_mark_area g.stopping g.stopped)
    (jsonData g.data)

/-- Build a requests per second graph (graph_rps_template). -/
def graph_rps_template (rps : List (String × Nat))
    (starting started stopping stopped : Option String) : String :=
  (Graph.new "graph-rps" "Requests #" rps starting started stopping stopped).generate_markup

/-- Build an errors per second graph (graph_eps_template). -/
def graph_eps_template (eps : List (String × Nat))
    (starting started stopping stopped : Option String) : String :=
  (Graph.new "graph-eps" "Errors #" eps starting started stopping stopped).generate_markup

/-- Build an average response time graph (graph_average_response_time_template). -/
def graph_average_response_time_template (response_times : List (String × Nat))
    (starting started stopping stopped : Option String) : String :=
  (Graph.new "graph-avg-response-time" "Response time [ms]" response_times
    starting started stopping stopped).generate_markup

/-- Build a users per second graph (graph_users_per_second_template). -/
def graph_users_per_second_template (active_users : List (String × Nat))
    (starting started stopping stopped : Option String) : String :=
  (Graph.new "graph-active-users" "Active users #" active_users
    starting started stopping stopped).generate_markup

/-- Build a tasks per second graph (graph_tasks_per_second_template). -/
def graph_tasks_per_second_template (tps : List (String × Nat))
    (starting started stopping stopped : Option String) : String :=
  (Graph.new "graph-tps" "Tasks #" tps starting started stopping stopped).generate_markup

/-- The part of the chart markup before the starting mark-area fragment:
it depends only on the chart's id and axis label. -/
def markupPre (html_id y_axis_label : String) : String :=
  graphSegA ++ html_id ++ graphSegB ++ html_id ++ graphSegC ++ y_axis_label ++ graphSegD

/-- The part of the chart markup after the stopping mark-area fragment:
it depends only on the serialized series values. -/
def markupPost (values : String) : String :=
  graphSegF ++ values ++ graphSegG

/-- Defines the metrics reported about requests (struct RequestMetric). -/
structure RequestMetric where
  method : String
  name : String
  number_of_requests : Nat
  number_of_failures : Nat
  response_time_average : String
  response_time_minimum : Nat
  response_time_maximum : Nat
  requests_per_second : String
  failures_per_second : String

/-- Defines the metrics reported about Coordinated Omission requests
(struct CORequestMetric). -/
structure CORequestMetric where
  method : String
  name : String
  response_time_average : String
  response_time_standard_deviation : String
  response_time_maximum : Nat

/-- Defines the metrics reported about responses (struct ResponseMetric).
In the source the eight percentile fields are strings produced by the
metrics module's formatter; they are modelled by the resolved numeric
latency values, which is what the formatter renders. -/
structure ResponseMetric where
  method : String
  name : String
  percentile_50 : Nat
  percentile_60 : Nat
  percentile_70 : Nat
  percentile_80 : Nat
  percentile_90 : Nat
  percentile_95 : Nat
  percentile_99 : Nat
  percentile_100 : Nat

/-- Defines the metrics reported about tasks (struct TaskMetric). -/
structure TaskMetric where
  is_task_set : Bool
  task : String
  name : String
  number_of_requests : Nat
  number_of_failures : Nat
  response_time_average : String
  response_time_minimum : Nat
  response_time_maximum : Nat
  requests_per_second : String
  failures_per_second : String

/-- Modelled from the spec: `metrics::GooseErrorMetricAggregate` is defined
in the metrics module, outside this repository snapshot; per the spec's
ErrorRow entity and `error_row`'s uses it carries an occurrence count and an
error description string. -/
structure GooseErrorMetricAggregate where
  occurrences : Nat
  error : String

/-- The templates necessary to build an html-formatted summary report
(struct GooseReportTemplates). -/
structure GooseReportTemplates where
  raw_requests_template : String
  raw_responses_template : String
  co_requests_template : String
  co_responses_template : String
  tasks_template : String
  status_codes_template : String
  errors_template : String
  graph_rps_template : String
  graph_average_response_time_template : String
  graph_users_per_second : String

/-- The cumulative-count walk over the histogram buckets (in the stored
key order): returns the first bucket key at which the accumulated count
reaches or exceeds the target rank, and the supplied maximum when the whole
histogram is exhausted first. -/
def percentileWalk : List (Nat × Nat) → Nat → Nat → Nat → Nat
  | [], _, _, maxv => maxv
  | (value, counter) :: rest, rank, acc, maxv =>
    if rank ≤ acc + counter then value else percentileWalk rest rank (acc + counter) maxv

/-- Modelled from the spec: `metrics::calculate_response_time_percentile`
lives in the metrics module, outside this repository snapshot. Per spec
section 4.1: target rank is `ceil(percentile * totalCount)` into the
conceptual sorted sample; the histogram (a BTreeMap, modelled as its
ascending key/count list) is walked accumulating counts and the first
bucket key whose cumulative count reaches the rank is returned; if the
histogram undercounts, the observed maximum is returned; a zero total
returns the observed minimum. The source formats the value as a string;
the numeric latency value is modelled. -/
def calculate_response_time_percentile (response_times : List (Nat × Nat))
    (total_requests min max : Nat) (percent : ℚ) : Nat :=
  if total_requests = 0 then min
  else percentileWalk response_times (Int.toNat ⌈percent * (total_requests : ℚ)⌉) 0 max

/-- Helper to generate a single response metric (get_response_metric): the
source computes the eight percentiles by looping over
`[0.5, 0.6, 0.7, 0.8, 0.9, 0.95, 0.99, 1.0]`; the loop is unrolled here. -/
def get_response_metric (method name : String) (response_times : List (Nat × Nat))
    (total_request_count response_time_minimum response_time_maximum : Nat) : ResponseMetric :=
  { method := method
    name := name
    percentile_50 := calculate_response_time_percentile response_times total_request_count
      response_time_minimum response_time_maximum (0.5 : ℚ)
    percentile_60 := calculate_response_time_percentile response_times total_request_count
      response_time_minimum response_time_maximum (0.6 : ℚ)
    percentile_70 := calculate_response_time_percentile response_times total_request_count
      response_time_minimum response_time_maximum (0.7 : ℚ)
    percentile_80 := calculate_response_time_percentile response_times total_request_count
      response_time_minimum response_time_maximum (0.8 : ℚ)
    percentile_90 := calculate_response_time_percentile response_times total_request_count
      response_time_minimum response_time_maximum (0.9 : ℚ)
    percentile_95 := calculate_response_time_percentile response_times total_request_count
      response_time_minimum response_time_maximum (0.95 : ℚ)
    percentile_99 := calculate_response_time_percentile response_times total_request_count
      response_time_minimum response_time_maximum (0.99 : ℚ)
    percentile_100 := calculate_response_time_percentile response_times total_request_count
      response_time_minimum response_time_maximum (1.0 : ℚ) }

/-- Build an individual row of raw request metrics in the html report
(raw_request_metrics_row). -/
def raw_request_metrics_row (metric : RequestMetric) : String :=
  "<tr>\n        <td>" ++ metric.method ++
    "</td>\n        <td>" ++ metric.name ++
    "</td>\n        <td>" ++ natRepr metric.number_of_requests ++
    "</td>\n        <td>" ++ natRepr metric.number_of_failures ++
    "</td>\n        <td>" ++ metric.response_time_average ++
    "</td>\n        <td>" ++ natRepr metric.response_time_minimum ++
    "</td>\n        <td>" ++ natRepr metric.response_time_maximum ++
    "</td>\n        <td>" ++ metric.requests_per_second ++
    "</td>\n        <td>" ++ metric.failures_per_second ++
    "</td>\n    </tr>"

/-- Build an individual row of Coordinated Omission Mitigation request
metrics in the html report (coordinated_omission_request_metrics_row).
The average cell's template is `<td>{average})</td>`, with a stray closing
parenthesis after the interpolated value, exactly as in the source. -/
def coordinated_omission_request_metrics_row (metric : CORequestMetric) : String :=
  "<tr>\n            <td>" ++ metric.method ++
    "</td>\n            <td>" ++ metric.name ++
    "</td>\n            <td>" ++ metric.response_time_average ++
    ")</td>\n            <td>" ++ metric.response_time_standard_deviation ++
    "</td>\n            <td>" ++ natRepr metric.response_time_maximum ++
    "</td>\n        </tr>"

/-- Build an individual row of task metrics in the html report
(task_metrics_row): a full-width header row when `is_task_set` is set,
otherwise the task's metric cells, the two counts rendered through
`format_number`. The label cell's `</strong>` without an opening tag is
exactly as in the source. -/
def task_metrics_row (metric : TaskMetric) : String :=
  if metric.is_task_set then
    "<tr>\n            <td colspan=\"10\" align=\"left\"><strong>" ++ metric.name ++
      "</strong></td>\n        </tr>"
  else
    "<tr>\n            <td colspan=\"2\">" ++ metric.task ++ " " ++ metric.name ++
      "</strong></td>\n            <td>" ++ format_number metric.number_of_requests ++
      "</td>\n            <td>" ++ format_number metric.number_of_failures ++
      "</td>\n            <td>" ++ metric.response_time_average ++
      "</td>\n            <td>" ++ natRepr metric.response_time_minimum ++
      "</td>\n            <td>" ++ natRepr metric.response_time_maximum ++
      "</td>\n            <td>" ++ metric.requests_per_second ++
      "</td>\n            <td>" ++ metric.failures_per_second ++
      "</td>\n        </tr>"

/-- Build an individual error row in the html report (error_row). The
`</strong>` without an opening tag is exactly as in the source. -/
def error_row (error : GooseErrorMetricAggregate) : String :=
  "<tr>\n        <td>" ++ natRepr error.occurrences ++
    "</td>\n        <td colspan=\"4\">" ++ error.error ++
    "</strong></td>\n    </tr>"

/-- Build the html report (build_report). The source reads the generator
name and version with `env!("CARGO_PKG_NAME")`/`env!("CARGO_PKG_VERSION")`
at build time; those two build-time constants are lifted to the first two
parameters here. -/
def build_report (pkg_name pkg_version users report_range hosts : String)
    (templates : GooseReportTemplates) : String :=
  repSeg0 ++ users ++ repSeg1 ++ hosts ++ repSeg2 ++ report_range ++ repSeg3 ++
    pkg_name ++ repSeg4 ++ pkg_version ++ repSeg5 ++
    templates.graph_rps_template ++ repSeg6 ++
    templates.raw_requests_template ++ repSeg7 ++
    templates.co_requests_template ++ repSeg8 ++
    templates.graph_average_response_time_template ++ repSeg9 ++
    templates.raw_responses_template ++ repSeg10 ++
    templates.co_responses_template ++ repSeg11 ++
    templates.status_codes_template ++ repSeg12 ++
    templates.tasks_template ++ repSeg13 ++
    templates.graph_users_per_second ++ repSeg14 ++
    templates.errors_template ++ repSeg15

/-- A character that serde_json's string serializer emits unchanged: not a
double quote, not a backslash, not a control character. -/
def jsonPlain (c : Char) : Bool :=
  !(c == '"') && !(c == '\\') && decide (32 ≤ c.toNat)

/-! Helper lemmas about string concatenation and the mark-area fragments. -/

/-- Prepending the empty string is the identity. -/
lemma str_empty_append (s : String) : "" ++ s = s := rfl

/-- A concatenation whose left part has a character is not the empty string. -/
lemma append_ne_empty_left (a b : String) (h : a.data ≠ []) : a ++ b ≠ "" := by
  intro hab
  have hd := congrArg String.data hab
  rw [String.data_append] at hd
  cases hx : a.data with
  | nil => exact h hx
  | cons c t => rw [hx] at hd; simp at hd

/-- A present starting window renders a nonempty fragment. -/
lemma starting_mark_area_some_ne (x y : String) : starting_mark_area (some x) (some y) ≠ "" := by
  show startAreaSegA ++ x ++ areaSegB ++ y ++ areaSegC ≠ ""
  simp only [String.append_assoc]
  exact append_ne_empty_left _ _ (by decide)

/-- A present stopping window renders a nonempty fragment. -/
lemma stopping_mark_area_some_ne (x y : String) : stopping_mark_area (some x) (some y) ≠ "" := by
  show stopAreaSegA ++ x ++ areaSegB ++ y ++ areaSegC ≠ ""
  simp only [String.append_assoc]
  exact append_ne_empty_left _ _ (by decide)

/-- Claim C1: for every series and window configuration the chart markup is a
fixed prefix (a function of the id and axis label only), then the starting
mark-area fragment, a fixed separator, the stopping mark-area fragment, and a
fixed suffix (a function of the serialized series only), in that order; each
fragment equals the corresponding literal mark-area block when both of its
timestamps are given and the empty string otherwise (so a partially given
window contributes the empty string), and outputs across window
configurations are byte-identical outside the two fragments. -/
theorem generate_markup_mark_area_independence
    (id label : String) (data : List (String × Nat)) (a b c d : Option String) :
    Graph.generate_markup ⟨id, label, data, a, b, c, d⟩ =
        markupPre id label ++ starting_mark_area a b ++ graphSegE ++ stopping_mark_area c d ++
          markupPost (jsonData data)
      ∧ (∀ x y, starting_mark_area (some x) (some y) =
          startAreaSegA ++ x ++ areaSegB ++ y ++ areaSegC)
      ∧ (starting_mark_area a b = "" ↔ a = none ∨ b = none)
      ∧ (∀ x y, stopping_mark_area (some x) (some y) =
          stopAreaSegA ++ x ++ areaSegB ++ y ++ areaSegC)
      ∧ (stopping_mark_area c d = "" ↔ c = none ∨ d = none) := by
  refine ⟨?_, fun x y => rfl, ?_, fun x y => rfl, ?_⟩
  · simp only [Graph.generate_markup, graphTemplate, markupPre, markupPost,
      String.append_assoc]
  · cases a with
    | none => simp [starting_mark_area]
    | some x =>
      cases b with
      | none => simp [starting_mark_area]
      | some y => simp [starting_mark_area_some_ne x y]
  · cases c with
    | none => simp [stopping_mark_area]
    | some x =>
      cases d with
      | none => simp [stopping_mark_area]
      | some y => simp [stopping_mark_area_some_ne x y]

set_option maxRecDepth 4000 in
/-- Claim C3: the concrete round-trip example. With the series
`[("2021-11-21 21:20:32",123), ("2021-11-21 21:20:33",111)]`, starting
window `("2021-11-21 21:20:32","2021-11-21 21:20:34")` and no stopping
window, the requests-per-second chart fragment is the fixed markup around
the literal 'Starting' mark-area block holding those two timestamps, the
stopping fragment is the empty string, and the series serializes exactly as
`[["2021-11-21 21:20:32",123],["2021-11-21 21:20:33",111]]`. -/
theorem graph_rps_round_trip :
    graph_rps_template [("2021-11-21 21:20:32", 123), ("2021-11-21 21:20:33", 111)]
        (some "2021-11-21 21:20:32") (some "2021-11-21 21:20:34") none none =
      markupPre "graph-rps" "Requests #" ++
        (startAreaSegA ++ "2021-11-21 21:20:32" ++ areaSegB ++ "2021-11-21 21:20:34" ++ areaSegC) ++
        graphSegE ++ "" ++
        markupPost "[[\"2021-11-21 21:20:32\",123],[\"2021-11-21 21:20:33\",111]]"
    ∧ stopping_mark_area none none = ""
    ∧ jsonData [("2021-11-21 21:20:32", 123), ("2021-11-21 21:20:33", 111)] =
        "[[\"2021-11-21 21:20:32\",123],[\"2021-11-21 21:20:33\",111]]"
    ∧ strContains "name: 'Starting'"
        (startAreaSegA ++ "2021-11-21 21:20:32" ++ areaSegB ++ "2021-11-21 21:20:34" ++ areaSegC) = true := by
  have hjson : jsonData [("2021-11-21 21:20:32", 123), ("2021-11-21 21:20:33", 111)] =
      "[[\"2021-11-21 21:20:32\",123],[\"2021-11-21 21:20:33\",111]]" := by decide
  refine ⟨?_, rfl, hjson, by decide⟩
  simp only [graph_rps_template, Graph.new, Graph.generate_markup, graphTemplate,
    markupPre, markupPost, hjson, String.append_assoc]
  rw [show starting_mark_area (some "2021-11-21 21:20:32") (some "2021-11-21 21:20:34") =
      startAreaSegA ++ ("2021-11-21 21:20:32" ++ (areaSegB ++ ("2021-11-21 21:20:34" ++ areaSegC)))
    from rfl]
  simp only [show stopping_mark_area none none = "" from rfl, str_empty_append,
    String.append_assoc]

/-- Counterexample to claim C4: at a concrete input, the requests-per-second
chart is mounted at the DOM id "graph-rps", which appears verbatim in the
fragment, and that id is not the claimed "requests-per-second". -/
theorem chart_dom_ids_cex :
    graph_rps_template [] none none none none =
      graphTemplate "graph-rps" "Requests #" "" "" "[]"
    ∧ occursIn "graph-rps" (graph_rps_template [] none none none none)
    ∧ "graph-rps" ≠ "requests-per-second" := by
  refine ⟨rfl, ?_, by decide⟩
  refine ⟨graphSegA, graphSegB ++ ("graph-rps" ++ (graphSegC ++ ("Requests #" ++
    (graphSegD ++ ("" ++ (graphSegE ++ ("" ++ (graphSegF ++ ("[]" ++ graphSegG))))))))), ?_⟩
  simp only [graph_rps_template, Graph.new, Graph.generate_markup, graphTemplate,
    String.append_assoc]
  rfl

/-- Amended claim C4: for every series and window configuration, the five
chart builders produce the chart template mounted at the DOM ids
"graph-rps", "graph-eps", "graph-avg-response-time", "graph-active-users"
and "graph-tps" respectively (each id appearing verbatim in its fragment),
not at the ids named by the specification. -/
theorem chart_dom_ids (data : List (String × Nat)) (a b c d : Option String) :
    graph_rps_template data a b c d =
      graphTemplate "graph-rps" "Requests #" (starting_mark_area a b)
        (stopping_mark_area c d) (jsonData data)
    ∧ graph_eps_template data a b c d =
      graphTemplate "graph-eps" "Errors #" (starting_mark_area a b)
        (stopping_mark_area c d) (jsonData data)
    ∧ graph_average_response_time_template data a b c d =
      graphTemplate "graph-avg-response-time" "Response time [ms]" (starting_mark_area a b)
        (stopping_mark_area c d) (jsonData data)
    ∧ graph_users_per_second_template data a b c d =
      graphTemplate "graph-active-users" "Active users #" (starting_mark_area a b)
        (stopping_mark_area c d) (jsonData data)
    ∧ graph_tasks_per_second_template data a b c d =
      graphTemplate "graph-tps" "Tasks #" (starting_mark_area a b)
        (stopping_mark_area c d) (jsonData data)
    ∧ occursIn "graph-rps" (graph_rps_template data a b c d) :=
  ⟨rfl, rfl, rfl, rfl, rfl,
    ⟨graphSegA, graphSegB ++ ("graph-rps" ++ (graphSegC ++ ("Requests #" ++ (graphSegD ++
        (starting_mark_area a b ++ (graphSegE ++ (stopping_mark_area c d ++
          (graphSegF ++ (jsonData data ++ graphSegG))))))))), by
      simp only [graph_rps_template, Graph.new, Graph.generate_markup, graphTemplate,
        String.append_assoc]⟩⟩

/-- Claim C9: for every Coordinated-Omission request metric, the rendered row
is method cell, name cell, then an average cell consisting of the average
string immediately followed by a literal ')' character, then plain
standard-deviation and maximum cells carrying no such extra character. -/
theorem co_request_row_stray_paren (m : CORequestMetric) :
    coordinated_omission_request_metrics_row m =
      "<tr>\n            " ++ tdCell m.method ++
        "\n            " ++ tdCell m.name ++
        "\n            <td>" ++ (m.response_time_average ++ ")") ++ "</td>" ++
        "\n            " ++ tdCell m.response_time_standard_deviation ++
        "\n            " ++ tdCell (natRepr m.response_time_maximum) ++
        "\n        </tr>" := by
  simp only [coordinated_omission_request_metrics_row, tdCell, String.append_assoc]
  rfl

/-- Claim C8: the row formatters HTML-escape nothing. For every request
metric the method and name strings appear verbatim in the rendered row, for
every error metric the error-description string appears verbatim in the
rendered row (whatever HTML-significant characters they contain), and in
particular a script tag passes through error_row unchanged. -/
theorem rows_no_html_escaping (m : RequestMetric) (e : GooseErrorMetricAggregate) :
    occursIn m.method (raw_request_metrics_row m)
    ∧ occursIn m.name (raw_request_metrics_row m)
    ∧ occursIn e.error (error_row e)
    ∧ occursIn "<script>alert(1)</script>"
        (error_row ⟨1, "<script>alert(1)</script>"⟩) := by
  refine ⟨⟨"<tr>\n        <td>", ?_, ?_⟩, ⟨"<tr>\n        <td>" ++ (m.method ++ "</td>\n        <td>"), ?_, ?_⟩,
    ⟨"<tr>\n        <td>" ++ (natRepr e.occurrences ++ "</td>\n        <td colspan=\"4\">"), "</strong></td>\n    </tr>", ?_⟩,
    ⟨"<tr>\n        <td>" ++ (natRepr 1 ++ "</td>\n        <td colspan=\"4\">"), "</strong></td>\n    </tr>", ?_⟩⟩
  · exact "</td>\n        <td>" ++ (m.name ++ ("</td>\n        <td>" ++ (natRepr m.number_of_requests ++
      ("</td>\n        <td>" ++ (natRepr m.number_of_failures ++ ("</td>\n        <td>" ++
      (m.response_time_average ++ ("</td>\n        <td>" ++ (natRepr m.response_time_minimum ++
      ("</td>\n        <td>" ++ (natRepr m.response_time_maximum ++ ("</td>\n        <td>" ++
      (m.requests_per_second ++ ("</td>\n        <td>" ++ (m.failures_per_second ++
      "</td>\n    </tr>")))))))))))))))
  · simp only [raw_request_metrics_row, String.append_assoc]
  · exact "</td>\n        <td>" ++ (natRepr m.number_of_requests ++
      ("</td>\n        <td>" ++ (natRepr m.number_of_failures ++ ("</td>\n        <td>" ++
      (m.response_time_average ++ ("</td>\n        <td>" ++ (natRepr m.response_time_minimum ++
      ("</td>\n        <td>" ++ (natRepr m.response_time_maximum ++ ("</td>\n        <td>" ++
      (m.requests_per_second ++ ("</td>\n        <td>" ++ (m.failures_per_second ++
      "</td>\n    </tr>")))))))))))))
  · simp only [raw_request_metrics_row, String.append_assoc]
  · simp only [error_row, String.append_assoc]
  · simp only [error_row, String.append_assoc]

set_option maxRecDepth 2000 in
/-- Counterexample to claim C5: for a concrete non-header task metric and a
request metric with identical underlying metrics, the task row renders
eight td cells while the request row renders nine, so the task row does not
render the same nine metric columns. -/
theorem task_row_columns_cex :
    countSubStr "<td" (task_metrics_row
      ⟨false, "GET /", "load", 5, 1, "1.1", 1, 2, "2.2", "0.1"⟩) = 8
    ∧ countSubStr "<td" (raw_request_metrics_row
      ⟨"GET", "load", 5, 1, "1.1", 1, 2, "2.2", "0.1"⟩) = 9 := by
  constructor <;> decide

/-- Amended claim C5: task_metrics_row branches on the is_task_set flag.
A header row is a single full-width (colspan 10) label cell holding only
the name and no numeric columns; a non-header row is one combined
task-and-name label cell spanning two columns followed by seven metric
cells — the same average/min/max/rps/failure cells as the request row for
identical underlying metrics, with the two count cells rendered through
format_number — eight td cells in all, against the request row's nine. -/
theorem task_row_shape (tk nm avg rps fps mth : String) (nreq nfail rmin rmax : Nat) :
    task_metrics_row ⟨true, tk, nm, nreq, nfail, avg, rmin, rmax, rps, fps⟩ =
      "<tr>\n            <td colspan=\"10\" align=\"left\"><strong>" ++ nm ++
        "</strong></td>\n        </tr>"
    ∧ task_metrics_row ⟨false, tk, nm, nreq, nfail, avg, rmin, rmax, rps, fps⟩ =
      "<tr>\n            <td colspan=\"2\">" ++ (tk ++ " " ++ nm ++ "</strong>") ++ "</td>" ++
        "\n            " ++ tdCell (format_number nreq) ++
        "\n            " ++ tdCell (format_number nfail) ++
        "\n            " ++ tdCell avg ++
        "\n            " ++ tdCell (natRepr rmin) ++
        "\n            " ++ tdCell (natRepr rmax) ++
        "\n            " ++ tdCell rps ++
        "\n            " ++ tdCell fps ++
        "\n        </tr>"
    ∧ raw_request_metrics_row ⟨mth, nm, nreq, nfail, avg, rmin, rmax, rps, fps⟩ =
      "<tr>\n        " ++ tdCell mth ++
        "\n        " ++ tdCell nm ++
        "\n        " ++ tdCell (natRepr nreq) ++
        "\n        " ++ tdCell (natRepr nfail) ++
        "\n        " ++ tdCell avg ++
        "\n        " ++ tdCell (natRepr rmin) ++
        "\n        " ++ tdCell (natRepr rmax) ++
        "\n        " ++ tdCell rps ++
        "\n        " ++ tdCell fps ++
        "\n    </tr>" := by
  refine ⟨rfl, ?_, ?_⟩ <;>
    · simp only [task_metrics_row, raw_request_metrics_row, tdCell, Bool.false_eq_true,
        if_false, String.append_assoc]
      rfl

/-- Claim C6: build_report produces the document's sections in the fixed
order header/style block, metadata (users, hosts, report range, generator
name and version), requests chart and table, Coordinated-Omission requests
fragment, responses chart and table, Coordinated-Omission responses
fragment, status-codes fragment, tasks fragment, users chart, errors
fragment; and a section supplied as the empty string contributes exactly
nothing: the document equals the concatenation with that slot removed
(shown for the status-codes and tasks sections). -/
theorem build_report_section_order (pkg_name pkg_version users report_range hosts : String)
    (t : GooseReportTemplates) :
    build_report pkg_name pkg_version users report_range hosts t =
      repSeg0 ++ users ++ repSeg1 ++ hosts ++ repSeg2 ++ report_range ++ repSeg3 ++
        pkg_name ++ repSeg4 ++ pkg_version ++ repSeg5 ++
        t.graph_rps_template ++ repSeg6 ++ t.raw_requests_template ++ repSeg7 ++
        t.co_requests_template ++ repSeg8 ++ t.graph_average_response_time_template ++
        repSeg9 ++ t.raw_responses_template ++ repSeg10 ++ t.co_responses_template ++
        repSeg11 ++ t.status_codes_template ++ repSeg12 ++ t.tasks_template ++ repSeg13 ++
        t.graph_users_per_second ++ repSeg14 ++ t.errors_template ++ repSeg15
    ∧ build_report pkg_name pkg_version users report_range hosts
        { t with status_codes_template := "", tasks_template := "" } =
      repSeg0 ++ users ++ repSeg1 ++ hosts ++ repSeg2 ++ report_range ++ repSeg3 ++
        pkg_name ++ repSeg4 ++ pkg_version ++ repSeg5 ++
        t.graph_rps_template ++ repSeg6 ++ t.raw_requests_template ++ repSeg7 ++
        t.co_requests_template ++ repSeg8 ++ t.graph_average_response_time_template ++
        repSeg9 ++ t.raw_responses_template ++ repSeg10 ++ t.co_responses_template ++
        (repSeg11 ++ repSeg12 ++ repSeg13) ++
        t.graph_users_per_second ++ repSeg14 ++ t.errors_template ++ repSeg15 := by
  constructor <;>
    simp only [build_report, str_empty_append, String.append_assoc]

/-- A character serde_json leaves unescaped passes through jsonEscapeChar
unchanged. -/
lemma jsonEscapeChar_plain (c : Char) (h : jsonPlain c = true) : jsonEscapeChar c = [c] := by
  simp only [jsonPlain, Bool.and_eq_true, Bool.not_eq_true', beq_eq_false_iff_ne, ne_eq,
    decide_eq_true_eq] at h
  obtain ⟨⟨h1, h2⟩, h3⟩ := h
  have e8 : ¬ c = Char.ofNat 8 := by rintro rfl; revert h3; decide
  have e9 : ¬ c = Char.ofNat 9 := by rintro rfl; revert h3; decide
  have e10 : ¬ c = Char.ofNat 10 := by rintro rfl; revert h3; decide
  have e12 : ¬ c = Char.ofNat 12 := by rintro rfl; revert h3; decide
  have e13 : ¬ c = Char.ofNat 13 := by rintro rfl; revert h3; decide
  have hlt : ¬ c.toNat < 32 := by omega
  simp [jsonEscapeChar, h1, h2, e8, e9, e10, e12, e13, hlt]

/-- Escaping a list of plain characters is the identity. -/
lemma listJoin_map_plain (l : List Char) (h : ∀ c ∈ l, jsonPlain c = true) :
    listJoin (l.map jsonEscapeChar) = l := by
  induction l with
  | nil => rfl
  | cons c t ih =>
    have hc := h c (List.mem_cons_self c t)
    have ht := ih fun x hx => h x (List.mem_cons_of_mem c hx)
    simp only [List.map, listJoin, ht, jsonEscapeChar_plain c hc, List.singleton_append]

/-- A string of plain characters serializes as itself between two quotes. -/
lemma jsonString_plain (s : String) (h : ∀ c ∈ s.data, jsonPlain c = true) :
    jsonString s = "\"" ++ s ++ "\"" := by
  apply String.ext
  show '"' :: (listJoin (s.data.map jsonEscapeChar) ++ ['"']) = _
  rw [listJoin_map_plain s.data h, String.data_append, String.data_append]
  rfl

/-- Counterexample to claim C7: a label holding a double quote is not
reproduced verbatim; serde_json escapes it in the serialized series. -/
theorem json_label_escaped_cex :
    jsonData [("x\"y", 1)] = "[[\"x\\\"y\",1]]"
    ∧ strContains "x\"y" (jsonData [("x\"y", 1)]) = false := by
  constructor <;> decide

/-- Amended claim C7: the chart builder serializes the series as the JSON
array of label/value pairs in exactly the input order (no resampling, no
gap-filling), embedding it verbatim in the chart markup's data slot; a
label is rendered as a standard JSON string, so any label free of
characters that JSON must escape (quotes, backslashes, control characters)
is reproduced verbatim, while other labels are escaped. -/
theorem json_series_serialization (data : List (String × Nat)) (g : Graph) :
    jsonData data = "[" ++ String.intercalate "," (data.map jsonPair) ++ "]"
    ∧ (∀ p ∈ data, (∀ c ∈ p.1.data, jsonPlain c = true) →
        jsonPair p = "[\"" ++ p.1 ++ "\"," ++ natRepr p.2 ++ "]")
    ∧ Graph.generate_markup g =
        markupPre g.html_id g.y_axis_label ++ starting_mark_area g.starting g.started ++
          graphSegE ++ stopping_mark_area g.stopping g.stopped ++
          (graphSegF ++ jsonData g.data ++ graphSegG) := by
  refine ⟨rfl, ?_, ?_⟩
  · intro p _hp hpl
    show "[" ++ jsonString p.1 ++ "," ++ natRepr p.2 ++ "]" = _
    rw [jsonString_plain p.1 hpl]
    simp only [String.append_assoc]
    rfl
  · simp only [Graph.generate_markup, graphTemplate, markupPre, String.append_assoc]

/-- A value below the supplied maximum and below every remaining bucket key
bounds the walk's result from below. -/
lemma le_percentileWalk (t : List (Nat × Nat)) (r acc maxv v : Nat)
    (hv : ∀ p ∈ t, v ≤ p.1) (hmax : v ≤ maxv) :
    v ≤ percentileWalk t r acc maxv := by
  induction t generalizing acc with
  | nil => exact hmax
  | cons q t ih =>
    obtain ⟨w, cnt⟩ := q
    show v ≤ (if r ≤ acc + cnt then w else percentileWalk t r (acc + cnt) maxv)
    by_cases hr : r ≤ acc + cnt
    · simpa [hr] using hv (w, cnt) (List.mem_cons_self _ _)
    · simpa [hr] using ih (acc + cnt) (fun p hp => hv p (List.mem_cons_of_mem _ hp))

/-- The cumulative walk is monotone in the target rank, provided the bucket
keys are stored in ascending order and bounded by the supplied maximum. -/
lemma percentileWalk_mono (l : List (Nat × Nat)) (r r' : Nat)
    (hr : r ≤ r') (maxv : Nat)
    (hs : List.Pairwise (fun p q : Nat × Nat => p.1 ≤ q.1) l)
    (hb : ∀ p ∈ l, p.1 ≤ maxv) (acc : Nat) :
    percentileWalk l r acc maxv ≤ percentileWalk l r' acc maxv := by
  induction l generalizing acc with
  | nil => exact le_refl maxv
  | cons q t ih =>
    obtain ⟨w, cnt⟩ := q
    rw [List.pairwise_cons] at hs
    show (if r ≤ acc + cnt then w else percentileWalk t r (acc + cnt) maxv) ≤
      (if r' ≤ acc + cnt then w else percentileWalk t r' (acc + cnt) maxv)
    by_cases h2 : r' ≤ acc + cnt
    · have h1 : r ≤ acc + cnt := le_trans hr h2
      simp [h1, h2]
    · by_cases h1 : r ≤ acc + cnt
      · simp only [h1, if_true, h2, if_false]
        exact le_percentileWalk t r' (acc + cnt) maxv w (fun p hp => hs.1 p hp)
          (hb (w, cnt) (List.mem_cons_self _ _))
      · simp only [h1, h2, if_false]
        exact ih hs.2 (fun p hp => hb p (List.mem_cons_of_mem _ hp)) (acc + cnt)

/-- The spec-modelled percentile resolver is monotone in the percentile,
provided the bucket keys ascend and do not exceed the observed maximum. -/
lemma crtp_mono (l : List (Nat × Nat)) (t minv maxv : Nat) (p q : ℚ) (hpq : p ≤ q)
    (hs : List.Pairwise (fun a b : Nat × Nat => a.1 ≤ b.1) l)
    (hb : ∀ a ∈ l, a.1 ≤ maxv) :
    calculate_response_time_percentile l t minv maxv p ≤
      calculate_response_time_percentile l t minv maxv q := by
  unfold calculate_response_time_percentile
  by_cases ht : t = 0
  · simp [ht]
  · simp only [ht, if_false]
    refine percentileWalk_mono l _ _ ?_ maxv hs hb 0
    refine Int.toNat_le_toNat (Int.ceil_mono ?_)
    exact mul_le_mul_of_nonneg_right hpq (by positivity)

/-- Amended claim C2: for every histogram whose bucket keys ascend (as a
BTreeMap iteration does) and do not exceed the observed maximum, and every
total count, minimum and maximum, the eight percentiles of
get_response_metric are non-decreasing: p50 <= p60 <= p70 <= p80 <= p90 <=
p95 <= p99 <= p100. -/
theorem get_response_metric_percentiles_monotone (method name : String)
    (response_times : List (Nat × Nat)) (total minv maxv : Nat)
    (hs : List.Pairwise (fun a b : Nat × Nat => a.1 ≤ b.1) response_times)
    (hb : ∀ a ∈ response_times, a.1 ≤ maxv) :
    (get_response_metric method name response_times total minv maxv).percentile_50 ≤
      (get_response_metric method name response_times total minv maxv).percentile_60
    ∧ (get_response_metric method name response_times total minv maxv).percentile_60 ≤
      (get_response_metric method name response_times total minv maxv).percentile_70
    ∧ (get_response_metric method name response_times total minv maxv).percentile_70 ≤
      (get_response_metric method name response_times total minv maxv).percentile_80
    ∧ (get_response_metric method name response_times total minv maxv).percentile_80 ≤
      (get_response_metric method name response_times total minv maxv).percentile_90
    ∧ (get_response_metric method name response_times total minv maxv).percentile_90 ≤
      (get_response_metric method name response_times total minv maxv).percentile_95
    ∧ (get_response_metric method name response_times total minv maxv).percentile_95 ≤
      (get_response_metric method name response_times total minv maxv).percentile_99
    ∧ (get_response_metric method name response_times total minv maxv).percentile_99 ≤
      (get_response_metric method name response_times total minv maxv).percentile_100 :=
  ⟨crtp_mono response_times total minv maxv (0.5 : ℚ) (0.6 : ℚ) (by norm_num) hs hb,
   crtp_mono response_times total minv maxv (0.6 : ℚ) (0.7 : ℚ) (by norm_num) hs hb,
   crtp_mono response_times total minv maxv (0.7 : ℚ) (0.8 : ℚ) (by norm_num) hs hb,
   crtp_mono response_times total minv maxv (0.8 : ℚ) (0.9 : ℚ) (by norm_num) hs hb,
   crtp_mono response_times total minv maxv (0.9 : ℚ) (0.95 : ℚ) (by norm_num) hs hb,
   crtp_mono response_times total minv maxv (0.95 : ℚ) (0.99 : ℚ) (by norm_num) hs hb,
   crtp_mono response_times total minv maxv (0.99 : ℚ) (1.0 : ℚ) (by norm_num) hs hb⟩

/-- Witness for the amended claim C2 at a concrete sorted, bounded
histogram. -/
theorem get_response_metric_percentiles_monotone_witness :
    (get_response_metric "GET" "/" [(1, 5), (2, 5)] 10 1 2).percentile_50 ≤
      (get_response_metric "GET" "/" [(1, 5), (2, 5)] 10 1 2).percentile_60
    ∧ (get_response_metric "GET" "/" [(1, 5), (2, 5)] 10 1 2).percentile_60 ≤
      (get_response_metric "GET" "/" [(1, 5), (2, 5)] 10 1 2).percentile_70
    ∧ (get_response_metric "GET" "/" [(1, 5), (2, 5)] 10 1 2).percentile_70 ≤
      (get_response_metric "GET" "/" [(1, 5), (2, 5)] 10 1 2).percentile_80
    ∧ (get_response_metric "GET" "/" [(1, 5), (2, 5)] 10 1 2).percentile_80 ≤
      (get_response_metric "GET" "/" [(1, 5), (2, 5)] 10 1 2).percentile_90
    ∧ (get_response_metric "GET" "/" [(1, 5), (2, 5)] 10 1 2).percentile_90 ≤
      (get_response_metric "GET" "/" [(1, 5), (2, 5)] 10 1 2).percentile_95
    ∧ (get_response_metric "GET" "/" [(1, 5), (2, 5)] 10 1 2).percentile_95 ≤
      (get_response_metric "GET" "/" [(1, 5), (2, 5)] 10 1 2).percentile_99
    ∧ (get_response_metric "GET" "/" [(1, 5), (2, 5)] 10 1 2).percentile_99 ≤
      (get_response_metric "GET" "/" [(1, 5), (2, 5)] 10 1 2).percentile_100 :=
  get_response_metric_percentiles_monotone "GET" "/" [(1, 5), (2, 5)] 10 1 2
    (by decide) (by decide)

unseal Rat.mul Rat.ofScientific in
/-- Counterexample to claim C2 as stated over all inputs: with the histogram
holding six observations in bucket 10, total count 10 and observed maximum
3, the 60th percentile resolves to bucket key 10 while the 70th percentile
overruns the histogram and falls back to the maximum 3, a decrease. -/
theorem percentiles_not_monotone_cex :
    (get_response_metric "GET" "/" [(10, 6)] 10 0 3).percentile_70 <
      (get_response_metric "GET" "/" [(10, 6)] 10 0 3).percentile_60 := by
  decide

/-- An initial run is no longer than the list it runs along. -/
lemma leadsWith_true_le (n h : List Char) (hl : leadsWith n h = true) : n.length ≤ h.length := by
  induction n generalizing h with
  | nil => simp
  | cons x n' ih =>
    cases h with
    | nil => simp [leadsWith] at hl
    | cons y h' =>
      simp only [leadsWith, Bool.and_eq_true] at hl
      simpa [Nat.succ_le_succ_iff] using ih h' hl.2

/-- A prefix test that fits inside the first part of an append ignores the
second part. -/
lemma leadsWith_append_of_le (n u b : List Char) (hle : n.length ≤ u.length) :
    leadsWith n (u ++ b) = leadsWith n u := by
  induction n generalizing u with
  | nil => rfl
  | cons x n' ih =>
    cases u with
    | nil => simp at hle
    | cons y u' =>
      show (x == y && leadsWith n' (u' ++ b)) = (x == y && leadsWith n' u')
      rw [ih u' (by simpa using hle)]

/-- If a needle runs along `u ++ b` and `u` is at most as long as the
needle, then `u` is an initial run of the needle. -/
lemma leadsWith_rev_of_append (n u b : List Char) (hle : u.length ≤ n.length)
    (h : leadsWith n (u ++ b) = true) : leadsWith u n = true := by
  induction u generalizing n with
  | nil => rfl
  | cons y u' ih =>
    cases n with
    | nil => simp at hle
    | cons x n' =>
      simp only [List.cons_append, leadsWith, Bool.and_eq_true] at h ⊢
      obtain ⟨hxy, h'⟩ := h
      refine ⟨?_, ih n' (by simpa using hle) h'⟩
      rw [beq_iff_eq] at hxy ⊢
      exact hxy.symm

/-- Occurrence counting distributes over an append whose first part is
span-safe for the needle: no occurrence can straddle the boundary. -/
lemma countSub_append_safe (n a b : List Char) (h : spanSafe n a = true) :
    countSub n (a ++ b) = countSub n a + countSub n b := by
  induction a with
  | nil => simp [countSub]
  | cons c t ih =>
    simp only [spanSafe, Bool.and_eq_true, Bool.or_eq_true, decide_eq_true_eq,
      Bool.not_eq_true'] at h
    obtain ⟨h1, h2⟩ := h
    show (if leadsWith n (c :: (t ++ b)) then 1 else 0) + countSub n (t ++ b) =
      ((if leadsWith n (c :: t) then 1 else 0) + countSub n t) + countSub n b
    rw [ih h2]
    by_cases hlen : n.length ≤ (c :: t).length
    · rw [show c :: (t ++ b) = (c :: t) ++ b from rfl,
        leadsWith_append_of_le n (c :: t) b hlen]
      omega
    · have hnl : leadsWith (c :: t) n = false := by
        rcases h1 with hd | hd
        · exact absurd hd hlen
        · exact hd
      have hf1 : leadsWith n (c :: t) = false := by
        cases hq : leadsWith n (c :: t)
        · rfl
        · exact absurd (leadsWith_true_le n (c :: t) hq) hlen
      have hf2 : leadsWith n (c :: (t ++ b)) = false := by
        cases hq : leadsWith n (c :: (t ++ b))
        · rfl
        · have hrev : leadsWith (c :: t) n = true :=
            leadsWith_rev_of_append n (c :: t) b (le_of_lt (lt_of_not_le hlen))
              (by exact hq)
          rw [hrev] at hnl
          cases hnl
      rw [hf1, hf2]
      simp

/-- Occurrence counting skips a first part that never holds the needle's
first character. -/
lemma countSub_skip (n a b : List Char) (c0 : Char) (hh : n.head? = some c0)
    (ha : ∀ c ∈ a, ¬ c = c0) : countSub n (a ++ b) = countSub n b := by
  induction a with
  | nil => rfl
  | cons c t ih =>
    cases n with
    | nil => simp at hh
    | cons x n' =>
      have hx : x = c0 := by simpa using hh
      have hc : ¬ c = c0 := ha c (List.mem_cons_self _ _)
      have hbq : (x == c) = false := by
        rw [beq_eq_false_iff_ne]
        intro heq
        exact hc (heq.symm.trans hx)
      have hlw : leadsWith (x :: n') (c :: (t ++ b)) = false := by
        simp [leadsWith, hbq]
      show (if leadsWith (x :: n') (c :: (t ++ b)) then 1 else 0) +
          countSub (x :: n') (t ++ b) = countSub (x :: n') b
      rw [hlw]
      simpa using ih (fun d hd => ha d (List.mem_cons_of_mem _ hd))

/-- String-level form of countSub_append_safe. -/
lemma countSubStr_append_safe (n a b : String) (h : spanSafe n.data a.data = true) :
    countSubStr n (a ++ b) = countSubStr n a + countSubStr n b := by
  unfold countSubStr
  rw [String.data_append]
  exact countSub_append_safe n.data a.data b.data h

/-- String-level form of countSub_skip. -/
lemma countSubStr_skip (n a b : String) (c0 : Char) (hh : n.data.head? = some c0)
    (ha : ∀ c ∈ a.data, ¬ c = c0) : countSubStr n (a ++ b) = countSubStr n b := by
  unfold countSubStr
  rw [String.data_append]
  exact countSub_skip n.data a.data b.data c0 hh ha

/-- Every digit character is one of '0'..'9'. -/
lemma digitChar_mem (k : Nat) :
    digitChar k ∈ ['0', '1', '2', '3', '4', '5', '6', '7', '8', '9'] := by
  match k with
  | 0 | 1 | 2 | 3 | 4 | 5 | 6 | 7 | 8 => decide
  | n + 9 => exact show ('9' : Char) ∈ ['0', '1', '2', '3', '4', '5', '6', '7', '8', '9'] by decide

/-- The fueled decimal rendering produces only digit characters. -/
lemma natToDecAux_digits (fuel : Nat) :
    ∀ (n : Nat) (c : Char), c ∈ natToDecAux fuel n →
      c ∈ ['0', '1', '2', '3', '4', '5', '6', '7', '8', '9'] := by
  induction fuel with
  | zero => intro n c hc; simp [natToDecAux] at hc
  | succ fuel ih =>
    intro n c hc
    by_cases hn : n < 10
    · simp only [natToDecAux, hn, if_true, List.mem_singleton] at hc
      exact hc ▸ digitChar_mem n
    · simp only [natToDecAux, hn, if_false, List.mem_append, List.mem_singleton] at hc
      rcases hc with hc | hc
      · exact ih (n / 10) c hc
      · exact hc ▸ digitChar_mem (n % 10)

/-- Decimal renderings contain no '<'. -/
lemma natRepr_ne_lt (m : Nat) : ∀ c ∈ (natRepr m).data, ¬ c = '<' := by
  intro c hc heq
  subst heq
  have := natToDecAux_digits (m + 1) m '<' hc
  revert this
  decide

/-- On lists shorter than four, comma-grouping is the identity. -/
lemma commaGroups_eq_self (l : List Char)
    (h : ∀ (a b c d : Char) (rest : List Char), l = a :: b :: c :: d :: rest → False) :
    commaGroups l = l := by
  rcases l with _ | ⟨a, _ | ⟨b, _ | ⟨c, _ | ⟨d, rest⟩⟩⟩⟩
  · rfl
  · rfl
  · rfl
  · rfl
  · exact absurd rfl (h a b c d rest)

/-- Comma-grouping only inserts commas. -/
lemma commaGroups_mem (l : List Char) (c : Char) (hc : c ∈ commaGroups l) :
    c ∈ l ∨ c = ',' := by
  induction l using commaGroups.induct with
  | case1 a b d e rest ih =>
    simp only [commaGroups, List.mem_cons] at hc
    rcases hc with rfl | rfl | rfl | rfl | hc
    · simp
    · simp
    · simp
    · right; rfl
    · rcases ih hc with h | h
      · left; simp only [List.mem_cons] at h ⊢; tauto
      · right; exact h
  | case2 l h =>
    rw [commaGroups_eq_self l h] at hc
    exact Or.inl hc

/-- format_number renders only digits and commas, so never a '<'. -/
lemma format_number_ne_lt (m : Nat) : ∀ c ∈ (format_number m).data, ¬ c = '<' := by
  intro c hc heq
  subst heq
  have h1 : '<' ∈ commaGroups (natToDec m).reverse := by
    simpa [format_number, List.mem_reverse] using hc
  rcases commaGroups_mem _ _ h1 with h | h
  · have := natToDecAux_digits (m + 1) m '<' (List.mem_reverse.1 h)
    revert this
    decide
  · revert h
    decide

/-- The occurrence count of a needle starting with '<' over a non-header
task row is the sum of its counts over the row's literal segments, provided
the metric's own strings contain no '<'. -/
lemma task_leaf_row_count (N : String) (hh : N.data.head? = some '<')
    (hT1 : spanSafe N.data ("<tr>\n            <td colspan=\"2\">" : String).data = true)
    (hT2 : spanSafe N.data ("</strong></td>\n            <td>" : String).data = true)
    (hT3 : spanSafe N.data ("</td>\n            <td>" : String).data = true)
    (tk nm avg rps fps : String) (nreq nfail rmin rmax : Nat)
    (h1 : ∀ c ∈ tk.data, ¬ c = '<') (h2 : ∀ c ∈ nm.data, ¬ c = '<')
    (h3 : ∀ c ∈ avg.data, ¬ c = '<') (h4 : ∀ c ∈ rps.data, ¬ c = '<')
    (h5 : ∀ c ∈ fps.data, ¬ c = '<') :
    countSubStr N (task_metrics_row ⟨false, tk, nm, nreq, nfail, avg, rmin, rmax, rps, fps⟩) =
      countSubStr N "<tr>\n            <td colspan=\"2\">" +
        (countSubStr N "</strong></td>\n            <td>" +
        (countSubStr N "</td>\n            <td>" + (countSubStr N "</td>\n            <td>" +
        (countSubStr N "</td>\n            <td>" + (countSubStr N "</td>\n            <td>" +
        (countSubStr N "</td>\n            <td>" + (countSubStr N "</td>\n            <td>" +
          countSubStr N "</td>\n        </tr>"))))))) := by
  have hrow : task_metrics_row ⟨false, tk, nm, nreq, nfail, avg, rmin, rmax, rps, fps⟩ =
      "<tr>\n            <td colspan=\"2\">" ++ (tk ++ (" " ++ (nm ++
        ("</strong></td>\n            <td>" ++ (format_number nreq ++
        ("</td>\n            <td>" ++ (format_number nfail ++
        ("</td>\n            <td>" ++ (avg ++
        ("</td>\n            <td>" ++ (natRepr rmin ++
        ("</td>\n            <td>" ++ (natRepr rmax ++
        ("</td>\n            <td>" ++ (rps ++
        ("</td>\n            <td>" ++ (fps ++
          "</td>\n        </tr>"))))))))))))))))) := by
    simp only [task_metrics_row, Bool.false_eq_true, if_false, String.append_assoc]
  rw [hrow,
    countSubStr_append_safe N _ _ hT1,
    countSubStr_skip N tk _ '<' hh h1,
    countSubStr_skip N " " _ '<' hh (by decide),
    countSubStr_skip N nm _ '<' hh h2,
    countSubStr_append_safe N _ _ hT2,
    countSubStr_skip N (format_number nreq) _ '<' hh (format_number_ne_lt nreq),
    countSubStr_append_safe N _ _ hT3,
    countSubStr_skip N (format_number nfail) _ '<' hh (format_number_ne_lt nfail),
    countSubStr_append_safe N _ _ hT3,
    countSubStr_skip N avg _ '<' hh h3,
    countSubStr_append_safe N _ _ hT3,
    countSubStr_skip N (natRepr rmin) _ '<' hh (natRepr_ne_lt rmin),
    countSubStr_append_safe N _ _ hT3,
    countSubStr_skip N (natRepr rmax) _ '<' hh (natRepr_ne_lt rmax),
    countSubStr_append_safe N _ _ hT3,
    countSubStr_skip N rps _ '<' hh h4,
    countSubStr_append_safe N _ _ hT3,
    countSubStr_skip N fps _ '<' hh h5]

/-- The occurrence count of a needle starting with '<' over an error row is
the sum of its counts over the row's literal segments, provided the error
description contains no '<'. -/
lemma error_row_count (N : String) (hh : N.data.head? = some '<')
    (hE1 : spanSafe N.data ("<tr>\n        <td>" : String).data = true)
    (hE2 : spanSafe N.data ("</td>\n        <td colspan=\"4\">" : String).data = true)
    (occ : Nat) (err : String) (h6 : ∀ c ∈ err.data, ¬ c = '<') :
    countSubStr N (error_row ⟨occ, err⟩) =
      countSubStr N "<tr>\n        <td>" + (countSubStr N "</td>\n        <td colspan=\"4\">" +
        countSubStr N "</strong></td>\n    </tr>") := by
  have hrow : error_row ⟨occ, err⟩ = "<tr>\n        <td>" ++ (natRepr occ ++
      ("</td>\n        <td colspan=\"4\">" ++ (err ++ "</strong></td>\n    </tr>"))) := by
    simp only [error_row, String.append_assoc]
  rw [hrow, countSubStr_append_safe N _ _ hE1,
    countSubStr_skip N (natRepr occ) _ '<' hh (natRepr_ne_lt occ),
    countSubStr_append_safe N _ _ hE2,
    countSubStr_skip N err _ '<' hh h6]

/-- Counterexample to claim C10 as stated over all metrics: an error
description that itself holds strong tags changes the tag counts — two
closing tags in the first row, and a matching opening tag in the second. -/
theorem stray_strong_tag_cex :
    countSubStr "</strong>" (error_row ⟨1, "</strong>"⟩) = 2
    ∧ countSubStr "<strong>" (error_row ⟨1, "<strong>boom</strong>"⟩) = 1 := by
  constructor <;> decide

/-- Amended claim C10: for every non-header task metric and every error
metric whose own strings contain no '<' character, the rendered rows hold
exactly one '</strong>' closing tag and no '<strong>' opening tag (the
stray closing tag follows the name and the error description), so the
fragments are not well-formed HTML. -/
theorem stray_strong_tags (tk nm avg rps fps err : String) (nreq nfail rmin rmax occ : Nat)
    (h1 : ∀ c ∈ tk.data, ¬ c = '<') (h2 : ∀ c ∈ nm.data, ¬ c = '<')
    (h3 : ∀ c ∈ avg.data, ¬ c = '<') (h4 : ∀ c ∈ rps.data, ¬ c = '<')
    (h5 : ∀ c ∈ fps.data, ¬ c = '<') (h6 : ∀ c ∈ err.data, ¬ c = '<') :
    countSubStr "</strong>"
        (task_metrics_row ⟨false, tk, nm, nreq, nfail, avg, rmin, rmax, rps, fps⟩) = 1
    ∧ countSubStr "<strong>"
        (task_metrics_row ⟨false, tk, nm, nreq, nfail, avg, rmin, rmax, rps, fps⟩) = 0
    ∧ countSubStr "</strong>" (error_row ⟨occ, err⟩) = 1
    ∧ countSubStr "<strong>" (error_row ⟨occ, err⟩) = 0 := by
  refine ⟨?_, ?_, ?_, ?_⟩
  · rw [task_leaf_row_count "</strong>" (by decide) (by decide) (by decide) (by decide)
      tk nm avg rps fps nreq nfail rmin rmax h1 h2 h3 h4 h5]
    decide
  · rw [task_leaf_row_count "<strong>" (by decide) (by decide) (by decide) (by decide)
      tk nm avg rps fps nreq nfail rmin rmax h1 h2 h3 h4 h5]
    decide
  · rw [error_row_count "</strong>" (by decide) (by decide) (by decide) occ err h6]
    decide
  · rw [error_row_count "<strong>" (by decide) (by decide) (by decide) occ err h6]
    decide

/-- Witness for the amended claim C10 at concrete markup-free metrics. -/
theorem stray_strong_tags_witness :
    countSubStr "</strong>"
        (task_metrics_row ⟨false, "GET /", "load", 5, 1, "1.1", 1, 2, "2.2", "0.1"⟩) = 1
    ∧ countSubStr "<strong>"
        (task_metrics_row ⟨false, "GET /", "load", 5, 1, "1.1", 1, 2, "2.2", "0.1"⟩) = 0
    ∧ countSubStr "</strong>" (error_row ⟨3, "timeout"⟩) = 1
    ∧ countSubStr "<strong>" (error_row ⟨3, "timeout"⟩) = 0 :=
  stray_strong_tags "GET /" "load" "1.1" "2.2" "0.1" "timeout" 5 1 1 2 3
    (by decide) (by decide) (by decide) (by decide) (by decide) (by decide)
